import Mathlib

/-!
Shallow embedding of `src/plugins/audio-notifications/hooks/audio_notification_hook.py`.

The script reads an optional JSON config file, reads one JSON object from stdin,
and dispatches a text-to-speech command. We model:

* JSON values as an inductive `Json` (the result of `json.loads`); a failed
  read/parse (missing file, unreadable file, empty file, malformed JSON) is
  `none : Option Json`, since `json.loads` raises on all of those and the
  script only observes the parsed value or the exception.
* the execution environment by a predicate `which : String → Bool`
  (`shutil.which cmd` succeeds) and
  `runOk : List String → Nat → Bool` (`subprocess.run args check=True timeout=t`
  returns without raising: the process launched, finished within the timeout
  and exited with status 0).
* the observable outcome of `main` as an exit code together with whether stdin
  was read and the list of `subprocess.run` invocations performed
  (arguments and timeout), or an uncaught exception.
-/

namespace AudioHook

/-- A parsed JSON value, as produced by Python's `json.loads`.  Objects are
association lists with distinct keys (as `json.loads` returns a `dict`). -/
inductive Json where
  | null : Json
  | bool : Bool → Json
  | num : Int → Json
  | str : String → Json
  | arr : List Json → Json
  | obj : List (String × Json) → Json

/-- `d.get(k)` for a parsed JSON value: key lookup on an object, `none`
(Python `None`) when the key is absent or the value is not an object. -/
def Json.getKey : Json → String → Option Json
  | .obj kvs, k => kvs.lookup k
  | _, _ => none

/-- `isinstance(v, dict)` for a parsed JSON value. -/
def Json.isObj : Json → Bool
  | .obj _ => true
  | _ => false

/-- Python `v == lit` for a possibly-absent decoded JSON value `v` and a
string literal `lit`: only a `str` with the same contents compares equal;
`None`, booleans, numbers, lists and dicts never equal a `str`. -/
def optEqStr : Option Json → String → Bool
  | some (.str s), t => s = t
  | _, _ => false

/-- `v if isinstance(v, str) else None` for a possibly-absent decoded JSON
value, as used for the `message` and `speech_command` type checks. -/
def optAsStr : Option Json → Option String
  | some (.str s) => some s
  | _ => none

/-- `v if isinstance(v, bool) else None` for a possibly-absent decoded JSON
value, as used for the `audio_off` type check. -/
def optAsBool : Option Json → Option Bool
  | some (.bool b) => some b
  | _ => none

/-- The whitespace characters stripped by Python's `str.strip()` (restricted
to ASCII: space, tab, newline, carriage return, vertical tab, form feed). -/
def pyWhitespace (c : Char) : Bool :=
  c = ' ' || c = '\t' || c = '\n' || c = '\r' || c = '\x0b' || c = '\x0c'

/-- Python `s.strip()`: remove leading and trailing whitespace. -/
def pyStrip (s : String) : String :=
  (((s.data.dropWhile pyWhitespace).reverse.dropWhile pyWhitespace).reverse).asString

/-- The `UserConfig` dataclass: both fields default to `None`. -/
structure UserConfig where
  audio_off : Option Bool := none
  speech_command : Option String := none
deriving DecidableEq, Repr

/-- `get_user_config()`.  The argument is the result of
`json.loads(CONFIG_PATH.read_text())`: `none` when any exception occurred
(missing/unreadable/empty file, invalid JSON), `some j` for the parsed value.
Mirrors the source: defaults on failure or non-dict; `audio_off` copied only
when `isinstance(·, bool)`; `speech_command` copied stripped only when
`isinstance(·, str)`. -/
def get_user_config (configJson : Option Json) : UserConfig :=
  match configJson with
  | none => {}
  | some j =>
    if j.isObj then
      { audio_off := optAsBool (j.getKey "audio_off"),
        speech_command := (optAsStr (j.getKey "speech_command")).map pyStrip }
    else {}

/-- `detect_default_command()`: probe `["say", "spd-say", "espeak"]` in order
with `shutil.which` and return the first hit. -/
def detect_default_command (which : String → Bool) : Option String :=
  (["say", "spd-say", "espeak"]).find? which

/-- Line 71, `user_config.speech_command or detect_default_command()`:
Python `or` falls through on a falsy value, and the only falsy `str` is the
empty string, so an empty (stripped) configured command also falls back to
the default probe. -/
def resolve_speech_command (uc : UserConfig) (which : String → Bool) :
    Option String :=
  match uc.speech_command with
  | some s => if s = "" then detect_default_command which else some s
  | none => detect_default_command which

/-- Lexer state of `shlex.split` (POSIX mode, `whitespace_split=True`). -/
inductive ShState where
  | normal : ShState
  | escaped : ShState
  | singleQ : ShState
  | doubleQ : ShState
  | escapedInDouble : ShState
deriving DecidableEq, Repr

/-- The whitespace characters of `shlex` (`' \t\r\n'`). -/
def shWhitespace (c : Char) : Bool :=
  c = ' ' || c = '\t' || c = '\r' || c = '\n'

/-- Core loop of `shlex.split` in POSIX mode with `whitespace_split=True`:
`tok` is the token accumulated so far (reversed), `quoted` records whether the
current token saw a quote (so that a bare pair of quotes yields an empty
token), `acc` the tokens emitted so far (reversed).  Returns `none` where
`shlex` raises `ValueError` ("No closing quotation" on end of input inside a
quote, "No escaped character" on a trailing escape). -/
def shlexRun : List Char → ShState → List Char → Bool → List (List Char) →
    Option (List (List Char))
  | [], .normal, tok, quoted, acc =>
    if tok.isEmpty ∧ ¬quoted then some acc.reverse
    else some (tok.reverse :: acc).reverse
  | [], .escaped, _, _, _ => none
  | [], .singleQ, _, _, _ => none
  | [], .doubleQ, _, _, _ => none
  | [], .escapedInDouble, _, _, _ => none
  | c :: rest, .normal, tok, quoted, acc =>
    if shWhitespace c then
      if tok.isEmpty ∧ ¬quoted then shlexRun rest .normal [] false acc
      else shlexRun rest .normal [] false (tok.reverse :: acc)
    else if c = '\'' then shlexRun rest .singleQ tok true acc
    else if c = '"' then shlexRun rest .doubleQ tok true acc
    else if c = '\\' then shlexRun rest .escaped tok quoted acc
    else shlexRun rest .normal (c :: tok) quoted acc
  | c :: rest, .escaped, tok, quoted, acc =>
    shlexRun rest .normal (c :: tok) quoted acc
  | c :: rest, .singleQ, tok, quoted, acc =>
    if c = '\'' then shlexRun rest .normal tok quoted acc
    else shlexRun rest .singleQ (c :: tok) quoted acc
  | c :: rest, .doubleQ, tok, quoted, acc =>
    if c = '"' then shlexRun rest .normal tok quoted acc
    else if c = '\\' then shlexRun rest .escapedInDouble tok quoted acc
    else shlexRun rest .doubleQ (c :: tok) quoted acc
  | c :: rest, .escapedInDouble, tok, quoted, acc =>
    if c = '"' ∨ c = '\\' then shlexRun rest .doubleQ (c :: tok) quoted acc
    else shlexRun rest .doubleQ (c :: '\\' :: tok) quoted acc

/-- `shlex.split(s)` (POSIX mode, the mode `shlex.split` uses): `none` models
the `ValueError` raised on an unclosed quote or a trailing escape character. -/
def shlexSplit (s : String) : Option (List String) :=
  (shlexRun s.data .normal [] false []).map (List.map List.asString)

/-- The observable result of a run that terminated via `sys.exit` (or by
`main` returning, which ends the process with status 0): the exit code,
whether stdin was read, and every `subprocess.run` invocation performed
(argument list, timeout). -/
structure MainResult where
  exitCode : Nat
  stdinRead : Bool
  invocations : List (List String × Nat)
deriving DecidableEq, Repr

/-- Outcome of a run of the script: a controlled exit, or the uncaught
`ValueError` that `shlex.split` (line 74, outside any `try`) raises. -/
inductive Outcome where
  | exit : MainResult → Outcome
  | uncaughtValueError : Outcome
deriving DecidableEq, Repr

/-- The exit code of a run, `none` when it died on an uncaught exception. -/
def Outcome.code : Outcome → Option Nat
  | .exit r => some r.exitCode
  | .uncaughtValueError => none

/-- The `subprocess.run` invocations of a run. -/
def Outcome.invocations : Outcome → List (List String × Nat)
  | .exit r => r.invocations
  | .uncaughtValueError => []

/-- `main()`.  `configJson` is the parsed config file (`none` = read/parse
exception), `stdinJson` the parsed stdin (`none` = `json.loads` exception,
covering empty and malformed stdin), `which`/`runOk` the environment.
Follows the source line by line: audio-off short circuit before stdin;
exit 2 on non-dict stdin; exit 0 on `hook_event_name != "Notification"`;
exit 2 on non-str `message`; resolve the command, exit 2 when `None`;
`shlex.split` (uncaught `ValueError` when it fails); one `subprocess.run`
with the stripped message appended and `timeout=10`, exit 2 on any
exception, fall through (exit 0) on success. -/
def main (configJson stdinJson : Option Json) (which : String → Bool)
    (runOk : List String → Nat → Bool) : Outcome :=
  if (get_user_config configJson).audio_off = some true then
    .exit ⟨0, false, []⟩
  else
    match stdinJson with
    | none => .exit ⟨2, true, []⟩
    | some hook_data =>
      if ¬hook_data.isObj then .exit ⟨2, true, []⟩
      else if ¬optEqStr (hook_data.getKey "hook_event_name") "Notification" then
        .exit ⟨0, true, []⟩
      else
        match optAsStr (hook_data.getKey "message") with
        | none => .exit ⟨2, true, []⟩
        | some m =>
          match resolve_speech_command (get_user_config configJson) which with
          | none => .exit ⟨2, true, []⟩
          | some cmdStr =>
            match shlexSplit cmdStr with
            | none => .uncaughtValueError
            | some args =>
              if runOk (args ++ [pyStrip m]) 10 then
                .exit ⟨0, true, [(args ++ [pyStrip m], 10)]⟩
              else
                .exit ⟨2, true, [(args ++ [pyStrip m], 10)]⟩

/-! ### Helper lemmas -/

/-- `d.get(k)` can only compare equal to a string when `d` is an object. -/
theorem isObj_of_optEqStr {j : Json} {k t : String}
    (h : optEqStr (j.getKey k) t = true) : j.isObj = true := by
  cases j with
  | obj kvs => rfl
  | null => simp [Json.getKey, optEqStr] at h
  | bool b => simp [Json.getKey, optEqStr] at h
  | num n => simp [Json.getKey, optEqStr] at h
  | str s => simp [Json.getKey, optEqStr] at h
  | arr xs => simp [Json.getKey, optEqStr] at h

/-- Unfolding of the default probe as an ordered cascade over the three
candidate command names. -/
theorem detect_default_command_eq (which : String → Bool) :
    detect_default_command which =
      if which "say" then some "say"
      else if which "spd-say" then some "spd-say"
      else if which "espeak" then some "espeak"
      else none := by
  cases h1 : which "say" <;> cases h2 : which "spd-say" <;>
    cases h3 : which "espeak" <;>
    simp [detect_default_command, List.find?, h1, h2, h3]

/-! ### Claims -/

/-- C1: for every config file whose JSON object has `audio_off` present and
literally `true`, the process exits with code 0 without reading standard
input, for every possible stdin content (including empty or malformed stdin,
both modelled by the universally quantified `stdin : Option Json`), and
invokes no external command. -/
theorem C1_audio_off_short_circuit (cfg stdin : Option Json) (j : Json)
    (which : String → Bool) (runOk : List String → Nat → Bool)
    (hcfg : cfg = some j)
    (hoff : j.getKey "audio_off" = some (.bool true)) :
    main cfg stdin which runOk = .exit ⟨0, false, []⟩ := by
  subst hcfg
  cases j with
  | obj kvs =>
    have hoff' : optAsBool ((Json.obj kvs).getKey "audio_off") = some true := by
      rw [hoff]; simp [optAsBool]
    simp [main, get_user_config, Json.isObj, hoff']
  | null => simp [Json.getKey] at hoff
  | bool b => simp [Json.getKey] at hoff
  | num n => simp [Json.getKey] at hoff
  | str s => simp [Json.getKey] at hoff
  | arr xs => simp [Json.getKey] at hoff

/-- Witness for C1 at a concrete config, with malformed stdin. -/
theorem C1_audio_off_short_circuit_witness :
    main (some (.obj [("audio_off", .bool true)])) none
      (fun _ => false) (fun _ _ => false) = .exit ⟨0, false, []⟩ :=
  C1_audio_off_short_circuit _ none (.obj [("audio_off", .bool true)])
    _ _ rfl rfl

/-- C2: when audio is not disabled, each protocol error — malformed stdin
JSON (`stdin = none`), a non-object top-level value, or a `Notification`
object whose `message` is absent or not a string — makes the process exit
with code 2. -/
theorem C2_protocol_errors_exit_2 (cfg stdin : Option Json)
    (which : String → Bool) (runOk : List String → Nat → Bool)
    (haudio : (get_user_config cfg).audio_off ≠ some true)
    (hbad : stdin = none
      ∨ (∃ j, stdin = some j ∧ j.isObj = false)
      ∨ (∃ j, stdin = some j
          ∧ optEqStr (j.getKey "hook_event_name") "Notification" = true
          ∧ optAsStr (j.getKey "message") = none)) :
    (main cfg stdin which runOk).code = some 2 := by
  rcases hbad with rfl | ⟨j, rfl, hobj⟩ | ⟨j, rfl, hev, hmsg⟩
  · simp [main, Outcome.code, haudio]
  · simp [main, Outcome.code, haudio, hobj]
  · have hobj := isObj_of_optEqStr hev
    simp [main, Outcome.code, haudio, hobj, hev, hmsg]

/-- Witness for C2 at a concrete input (default config, malformed stdin). -/
theorem C2_protocol_errors_exit_2_witness :
    (main none none (fun _ => false) (fun _ _ => false)).code = some 2 :=
  C2_protocol_errors_exit_2 none none _ _ (by decide) (Or.inl rfl)

/-- C3, counterexample: the claim that every run ends in a controlled exit
with code 0 or 2 is false.  With config `{"speech_command": "say 'oops"}`
(an unclosed quote) and a valid Notification on stdin, line 74's
`shlex.split` — outside any `try` — raises an uncaught `ValueError`, so the
run ends with a Python traceback (exit status 1), not a controlled exit. -/
theorem C3_counterexample :
    main (some (.obj [("speech_command", .str "say 'oops")]))
        (some (.obj [("hook_event_name", .str "Notification"),
                     ("message", .str "hi")]))
        (fun _ => false) (fun _ _ => true)
      = .uncaughtValueError
    ∧ (main (some (.obj [("speech_command", .str "say 'oops")]))
        (some (.obj [("hook_event_name", .str "Notification"),
                     ("message", .str "hi")]))
        (fun _ => false) (fun _ _ => true)).code = none := by
  constructor <;> decide

/-- C3, amended: every run either terminates via a controlled exit with code
0 or code 2, or dies on the uncaught `ValueError` from `shlex.split`, which
happens exactly when a speech command was resolved and its string fails
shell-lexical splitting (unclosed quote or trailing escape). -/
theorem C3_exit_codes_or_shlex_fault (cfg stdin : Option Json)
    (which : String → Bool) (runOk : List String → Nat → Bool) :
    (main cfg stdin which runOk).code = some 0
    ∨ (main cfg stdin which runOk).code = some 2
    ∨ (main cfg stdin which runOk = .uncaughtValueError
        ∧ ∃ s, resolve_speech_command (get_user_config cfg) which = some s
            ∧ shlexSplit s = none) := by
  by_cases h1 : (get_user_config cfg).audio_off = some true
  · simp [main, h1, Outcome.code]
  · cases stdin with
    | none => simp [main, h1, Outcome.code]
    | some hook_data =>
      by_cases h2 : hook_data.isObj = true
      · by_cases h3 :
            optEqStr (hook_data.getKey "hook_event_name") "Notification" = true
        · rcases h4 : optAsStr (hook_data.getKey "message") with _ | m
          · simp [main, h1, h2, h3, h4, Outcome.code]
          · rcases h5 : resolve_speech_command (get_user_config cfg) which
                with _ | s
            · simp [main, h1, h2, h3, h4, h5, Outcome.code]
            · rcases h6 : shlexSplit s with _ | args
              · right; right
                constructor
                · simp [main, h1, h2, h3, h4, h5, h6]
                · exact ⟨s, rfl, h6⟩
              · by_cases h7 : runOk (args ++ [pyStrip m]) 10
                · simp [main, h1, h2, h3, h4, h5, h6, h7, Outcome.code]
                · simp [main, h1, h2, h3, h4, h5, h6, h7, Outcome.code]
        · simp [main, h1, h2, h3, Outcome.code]
      · simp [main, h1, h2, Outcome.code]

/-- C4: command resolution — a non-empty (after strip) configured
`speech_command` takes precedence; otherwise the fixed candidate list
`["say", "spd-say", "espeak"]` is probed in order and the first one present
wins; when resolution yields nothing on a valid Notification event, the
process exits with code 2. -/
theorem C4_command_resolution (cfg stdin : Option Json) (which : String → Bool)
    (runOk : List String → Nat → Bool) (j : Json) (s : String) :
    ((get_user_config cfg).speech_command = some s → s ≠ "" →
      resolve_speech_command (get_user_config cfg) which = some s)
    ∧ ((get_user_config cfg).speech_command = none
        ∨ (get_user_config cfg).speech_command = some "" →
      resolve_speech_command (get_user_config cfg) which =
        if which "say" then some "say"
        else if which "spd-say" then some "spd-say"
        else if which "espeak" then some "espeak"
        else none)
    ∧ (stdin = some j → j.isObj = true →
        optEqStr (j.getKey "hook_event_name") "Notification" = true →
        (∃ m, optAsStr (j.getKey "message") = some m) →
        (get_user_config cfg).audio_off ≠ some true →
        resolve_speech_command (get_user_config cfg) which = none →
        (main cfg stdin which runOk).code = some 2) := by
  refine ⟨?_, ?_, ?_⟩
  · intro hs hne
    simp [resolve_speech_command, hs, hne]
  · rintro (h | h) <;>
      simp [resolve_speech_command, h, detect_default_command_eq]
  · rintro rfl hobj hev ⟨m, hmsg⟩ haudio hres
    simp [main, Outcome.code, haudio, hobj, hev, hmsg, hres]

/-- Witness for C4: a configured command wins; with no config the probe
returns the first available candidate; with nothing available the process
exits 2 on a valid Notification. -/
theorem C4_command_resolution_witness :
    resolve_speech_command
        (get_user_config (some (.obj [("speech_command", .str "espeak")])))
        (fun _ => false) = some "espeak"
    ∧ resolve_speech_command (get_user_config none) (fun c => c == "spd-say")
        = some "spd-say"
    ∧ (main none (some (.obj [("hook_event_name", .str "Notification"),
          ("message", .str "hi")])) (fun _ => false) (fun _ _ => false)).code
        = some 2 := by
  refine ⟨?_, ?_, ?_⟩
  · exact (C4_command_resolution
      (some (.obj [("speech_command", .str "espeak")])) none
      (fun _ => false) (fun _ _ => false) Json.null "espeak").1
      (by decide) (by decide)
  · have h := (C4_command_resolution none none (fun c => c == "spd-say")
      (fun _ _ => false) Json.null "").2.1 (Or.inl (by decide))
    rw [h]; decide
  · exact (C4_command_resolution none
      (some (.obj [("hook_event_name", .str "Notification"),
        ("message", .str "hi")]))
      (fun _ => false) (fun _ _ => false)
      (.obj [("hook_event_name", .str "Notification"),
        ("message", .str "hi")]) "").2.2
      rfl (by decide) (by decide) ⟨"hi", by decide⟩ (by decide) (by decide)

/-- C5: dispatch containment — every `subprocess.run` invocation of a run
carries the 10-second timeout, a run performs at most one invocation (no
retry), and when the invocation fails (cannot launch, non-zero status, or
timeout: `runOk … = false`) the exception is caught and the process exits
with code 2, while success falls through to exit code 0. -/
theorem C5_dispatch_containment (cfg stdin : Option Json)
    (which : String → Bool) (runOk : List String → Nat → Bool)
    (args : List String) (t : Nat)
    (h : (args, t) ∈ (main cfg stdin which runOk).invocations) :
    t = 10
    ∧ (main cfg stdin which runOk).invocations = [(args, 10)]
    ∧ (main cfg stdin which runOk).code
        = some (if runOk args 10 then 0 else 2) := by
  by_cases h1 : (get_user_config cfg).audio_off = some true
  · simp [main, h1, Outcome.invocations] at h
  · cases stdin with
    | none => simp [main, h1, Outcome.invocations] at h
    | some hook_data =>
      by_cases h2 : hook_data.isObj = true
      · by_cases h3 :
            optEqStr (hook_data.getKey "hook_event_name") "Notification" = true
        · rcases h4 : optAsStr (hook_data.getKey "message") with _ | m
          · simp [main, h1, h2, h3, h4, Outcome.invocations] at h
          · rcases h5 : resolve_speech_command (get_user_config cfg) which
                with _ | s
            · simp [main, h1, h2, h3, h4, h5, Outcome.invocations] at h
            · rcases h6 : shlexSplit s with _ | args'
              · simp [main, h1, h2, h3, h4, h5, h6, Outcome.invocations] at h
              · by_cases h7 : runOk (args' ++ [pyStrip m]) 10
                · simp [main, h1, h2, h3, h4, h5, h6, h7,
                    Outcome.invocations] at h
                  obtain ⟨rfl, rfl⟩ := h
                  simp [main, h1, h2, h3, h4, h5, h6, h7,
                    Outcome.invocations, Outcome.code]
                · simp [main, h1, h2, h3, h4, h5, h6, h7,
                    Outcome.invocations] at h
                  obtain ⟨rfl, rfl⟩ := h
                  simp [main, h1, h2, h3, h4, h5, h6, h7,
                    Outcome.invocations, Outcome.code]
        · simp [main, h1, h2, h3, Outcome.invocations] at h
      · simp [main, h1, h2, Outcome.invocations] at h

/-- Witness for C5: a concrete run whose invocation fails exits with
code 2 after exactly one invocation with timeout 10. -/
theorem C5_dispatch_containment_witness :
    (main none (some (.obj [("hook_event_name", .str "Notification"),
        ("message", .str "hi")])) (fun c => c == "say")
        (fun _ _ => false)).code = some 2 := by
  have h : ((["say", "hi"] : List String), 10) ∈
      (main none (some (.obj [("hook_event_name", .str "Notification"),
        ("message", .str "hi")])) (fun c => c == "say")
        (fun _ _ => false)).invocations := by decide
  have h2 := (C5_dispatch_containment none
    (some (.obj [("hook_event_name", .str "Notification"),
      ("message", .str "hi")])) (fun c => c == "say")
    (fun _ _ => false) ["say", "hi"] 10 h).2.2
  rw [h2]; decide

/-- C6: for a valid Notification event with a string `message` and a
resolved command string, the command string is split into argument words by
shell-lexical rules (`shlexSplit`) and the stripped message is appended as
the final argument of the single invocation. -/
theorem C6_shlex_split_and_trimmed_message (cfg : Option Json) (j : Json)
    (which : String → Bool) (runOk : List String → Nat → Bool)
    (m s : String) (args : List String)
    (haudio : (get_user_config cfg).audio_off ≠ some true)
    (hobj : j.isObj = true)
    (hev : optEqStr (j.getKey "hook_event_name") "Notification" = true)
    (hmsg : optAsStr (j.getKey "message") = some m)
    (hres : resolve_speech_command (get_user_config cfg) which = some s)
    (hsplit : shlexSplit s = some args) :
    (main cfg (some j) which runOk).invocations
      = [(args ++ [pyStrip m], 10)] := by
  by_cases h7 : runOk (args ++ [pyStrip m]) 10 <;>
    simp [main, Outcome.invocations, haudio, hobj, hev, hmsg, hres, hsplit, h7]

/-- Witness for C6: config command `"say --rate=200"` with message
`"  Build finished  "` yields the argument list
`["say", "--rate=200", "Build finished"]`. -/
theorem C6_shlex_split_and_trimmed_message_witness :
    (main (some (.obj [("speech_command", .str "say --rate=200")]))
        (some (.obj [("hook_event_name", .str "Notification"),
                     ("message", .str "  Build finished  ")]))
        (fun _ => false) (fun _ _ => true)).invocations
      = [(["say", "--rate=200", "Build finished"], 10)] := by
  have h := C6_shlex_split_and_trimmed_message
    (some (.obj [("speech_command", .str "say --rate=200")]))
    (.obj [("hook_event_name", .str "Notification"),
           ("message", .str "  Build finished  ")])
    (fun _ => false) (fun _ _ => true)
    "  Build finished  " "say --rate=200" ["say", "--rate=200"]
    (by decide) (by decide) (by decide) (by decide) (by decide) (by decide)
  rw [h]; decide

/-- C7: the config loader is total (a Lean function, so it never raises):
a missing/unreadable/empty/invalid-JSON file (`none`) and a non-object value
both yield the all-defaults config; on an object, `audio_off` is copied
exactly when it is a boolean and `speech_command` is copied stripped exactly
when it is a string, each otherwise left `none`. -/
theorem C7_config_loader (j : Json) (kvs : List (String × Json)) :
    get_user_config none = { audio_off := none, speech_command := none }
    ∧ (j.isObj = false →
        get_user_config (some j) = { audio_off := none, speech_command := none })
    ∧ (∀ b, (Json.obj kvs).getKey "audio_off" = some (.bool b) →
        (get_user_config (some (.obj kvs))).audio_off = some b)
    ∧ (optAsBool ((Json.obj kvs).getKey "audio_off") = none →
        (get_user_config (some (.obj kvs))).audio_off = none)
    ∧ (∀ s, (Json.obj kvs).getKey "speech_command" = some (.str s) →
        (get_user_config (some (.obj kvs))).speech_command = some (pyStrip s))
    ∧ (optAsStr ((Json.obj kvs).getKey "speech_command") = none →
        (get_user_config (some (.obj kvs))).speech_command = none) := by
  refine ⟨rfl, ?_, ?_, ?_, ?_, ?_⟩
  · intro h; simp [get_user_config, h]
  · intro b h; simp [get_user_config, Json.isObj, h, optAsBool]
  · intro h; simp [get_user_config, Json.isObj, h]
  · intro s h; simp [get_user_config, Json.isObj, h, optAsStr]
  · intro h; simp [get_user_config, Json.isObj, h]

/-- Witness for C7: a non-object config gives defaults; a config with a
non-boolean `audio_off` leaves it unset while a string `speech_command`
`"  say  "` is copied stripped to `"say"`. -/
theorem C7_config_loader_witness :
    get_user_config (some (.arr []))
      = { audio_off := none, speech_command := none }
    ∧ (get_user_config (some (.obj [("audio_off", .num 1),
        ("speech_command", .str "  say  ")]))).audio_off = none
    ∧ (get_user_config (some (.obj [("audio_off", .num 1),
        ("speech_command", .str "  say  ")]))).speech_command = some "say" := by
  refine ⟨?_, ?_, ?_⟩
  · exact (C7_config_loader (.arr []) []).2.1 (by decide)
  · exact (C7_config_loader Json.null
      [("audio_off", .num 1), ("speech_command", .str "  say  ")]).2.2.2.1
      (by decide)
  · have h := (C7_config_loader Json.null
      [("audio_off", .num 1), ("speech_command", .str "  say  ")]).2.2.2.2.1
      "  say  " rfl
    rw [h]; decide

/-- C8: when config does not disable audio, a stdin object whose
`hook_event_name` is anything other than the string `"Notification"`
(absent, another string, or a non-string) makes the process exit with code 0
with no external command invoked. -/
theorem C8_wrong_event_noop (cfg : Option Json) (j : Json)
    (which : String → Bool) (runOk : List String → Nat → Bool)
    (haudio : (get_user_config cfg).audio_off ≠ some true)
    (hobj : j.isObj = true)
    (hev : optEqStr (j.getKey "hook_event_name") "Notification" = false) :
    main cfg (some j) which runOk = .exit ⟨0, true, []⟩ := by
  simp [main, haudio, hobj, hev]

/-- Witness for C8 on the event kind `"Stop"`. -/
theorem C8_wrong_event_noop_witness :
    main none (some (.obj [("hook_event_name", .str "Stop")]))
        (fun _ => true) (fun _ _ => true)
      = .exit ⟨0, true, []⟩ :=
  C8_wrong_event_noop none (.obj [("hook_event_name", .str "Stop")])
    (fun _ => true) (fun _ _ => true) (by decide) (by decide) (by decide)

/-- C9: a non-empty configured `speech_command` makes the default candidate
probe irrelevant — resolution returns the configured command for every
`which` oracle — and when its invocation fails the process exits 2 having
invoked only the configured command, with no fallback invocation. -/
theorem C9_configured_command_no_fallback (cfg stdin : Option Json)
    (which which2 : String → Bool) (runOk : List String → Nat → Bool)
    (s : String)
    (hs : (get_user_config cfg).speech_command = some s) (hne : s ≠ "") :
    resolve_speech_command (get_user_config cfg) which = some s
    ∧ resolve_speech_command (get_user_config cfg) which
        = resolve_speech_command (get_user_config cfg) which2
    ∧ (∀ j m args, stdin = some j → j.isObj = true →
        optEqStr (j.getKey "hook_event_name") "Notification" = true →
        optAsStr (j.getKey "message") = some m →
        (get_user_config cfg).audio_off ≠ some true →
        shlexSplit s = some args →
        runOk (args ++ [pyStrip m]) 10 = false →
        main cfg stdin which runOk
          = .exit ⟨2, true, [(args ++ [pyStrip m], 10)]⟩) := by
  refine ⟨?_, ?_, ?_⟩
  · simp [resolve_speech_command, hs, hne]
  · simp [resolve_speech_command, hs, hne]
  · rintro j m args rfl hobj hev hmsg haudio hsplit hrun
    have hres : resolve_speech_command (get_user_config cfg) which = some s := by
      simp [resolve_speech_command, hs, hne]
    simp [main, haudio, hobj, hev, hmsg, hres, hsplit, hrun]

/-- Witness for C9: configured command `"nosuchcmd"` fails to launch while
every default candidate is available, yet the run exits 2 after invoking
only `["nosuchcmd", "hi"]`. -/
theorem C9_configured_command_no_fallback_witness :
    main (some (.obj [("speech_command", .str "nosuchcmd")]))
        (some (.obj [("hook_event_name", .str "Notification"),
                     ("message", .str "hi")]))
        (fun _ => true) (fun _ _ => false)
      = .exit ⟨2, true, [(["nosuchcmd", "hi"], 10)]⟩ := by
  have h := (C9_configured_command_no_fallback
    (some (.obj [("speech_command", .str "nosuchcmd")]))
    (some (.obj [("hook_event_name", .str "Notification"),
                 ("message", .str "hi")]))
    (fun _ => true) (fun _ => false) (fun _ _ => false) "nosuchcmd"
    (by decide) (by decide)).2.2
    (.obj [("hook_event_name", .str "Notification"), ("message", .str "hi")])
    "hi" ["nosuchcmd"] rfl (by decide) (by decide) (by decide) (by decide)
    (by decide) (by decide)
  rw [h]; decide

/-- C10: the `message` field is only validated after the event-kind check —
a stdin object with a wrong event kind exits 0 (never 2) even when `message`
is absent or not a string. -/
theorem C10_message_unchecked_on_wrong_event (cfg : Option Json) (j : Json)
    (which : String → Bool) (runOk : List String → Nat → Bool)
    (haudio : (get_user_config cfg).audio_off ≠ some true)
    (hobj : j.isObj = true)
    (hev : optEqStr (j.getKey "hook_event_name") "Notification" = false)
    (hmsg : optAsStr (j.getKey "message") = none) :
    (main cfg (some j) which runOk).code = some 0
    ∧ (main cfg (some j) which runOk).code ≠ some 2 := by
  have h : main cfg (some j) which runOk = .exit ⟨0, true, []⟩ := by
    simp [main, haudio, hobj, hev]
  rw [h]; exact ⟨rfl, by decide⟩

/-- Witness for C10: event `"Stop"` with a numeric `message` still exits 0. -/
theorem C10_message_unchecked_on_wrong_event_witness :
    (main none (some (.obj [("hook_event_name", .str "Stop"),
        ("message", .num 3)])) (fun _ => false) (fun _ _ => false)).code
      = some 0 :=
  (C10_message_unchecked_on_wrong_event none
    (.obj [("hook_event_name", .str "Stop"), ("message", .num 3)])
    (fun _ => false) (fun _ _ => false)
    (by decide) (by decide) (by decide) (by decide)).1

end AudioHook
